import Mathlib

/-!
Verification of the modal scraper pipeline (src/app/modal_scraper.py):
a shallow embedding of the override-merge, price-alert, job-lifecycle,
ingestion-batcher and provider-fallback logic, with theorems settling the
specification claims against it.
-/

/-- An error entry as appended to a ScrapeResult's `errors` list:
`{"method": ..., "operation": ..., "error": ...}`, with the extraction-failure
entry optionally carrying a `screenshotUrl` key. -/
structure ErrEntry where
  method : String
  operation : String
  error : String
  screenshotUrl : Option String := Option.none
  deriving DecidableEq, Repr

/-- A Python value as it occurs in the dictionaries this pipeline passes
around.  `vNone` stands for Python `None`; list-valued entries occurring in
scrape records (the attempts log and the error log) get their own
constructors to keep equality decidable. -/
inductive PyVal where
  | vNone
  | vStr (s : String)
  | vNum (q : ℚ)
  | vBool (b : Bool)
  | vStrList (xs : List String)
  | vErrList (xs : List ErrEntry)
  deriving DecidableEq, Repr

open PyVal

/-- Python truthiness for the values above (`if not x` tests). -/
def pyTruthy : PyVal → Bool
  | vNone => false
  | vStr s => s ≠ ""
  | vNum q => q ≠ 0
  | vBool b => b
  | vStrList xs => xs ≠ []
  | vErrList xs => xs ≠ []

/-- A Python dict, as an insertion-ordered association list with unique keys. -/
abbrev PyDict := List (String × PyVal)

/-- `d[k]` as an option: `some v` when the key is present. -/
def dget (d : PyDict) (k : String) : Option PyVal :=
  (d.find? (fun p => p.1 = k)).map (fun p => p.2)

/-- Python `d.get(k)`: a missing key reads as `None`. -/
def pyGet (d : PyDict) (k : String) : PyVal :=
  (dget d k).getD vNone

/-- Python `d[k] = v`: update in place when the key exists (preserving
insertion order), append otherwise. -/
def dset (d : PyDict) (k : String) (v : PyVal) : PyDict :=
  if d.any (fun p => p.1 = k) then
    d.map (fun p => if p.1 = k then (k, v) else p)
  else
    d ++ [(k, v)]

/-- `merge_with_initial_data` (modal_scraper.py, lines 1629-1646): copy the
scrape result, then write every non-`None` entry of `initial_data` over it;
an empty `initial_data` returns the result unchanged. -/
def merge_with_initial_data (result : PyDict) (initial_data : PyDict) : PyDict :=
  if initial_data = [] then result
  else
    initial_data.foldl
      (fun merged kv => if kv.2 ≠ vNone then dset merged kv.1 kv.2 else merged)
      result

/-- `field_mappings` from `extract_initial_data` (modal_scraper.py, lines
1563-1615): input field name to output field name, in source order. -/
def field_mappings : List (String × String) :=
  [("urlId", "urlId"),
   ("productId", "productId"),
   ("sellerId", "sellerId"),
   ("alertId", "alertId"),
   ("companyName", "companyName"),
   ("hasAlert", "hasAlert"),
   ("screenshotId", "screenshotId"),
   ("productTitle", "productTitle"),
   ("productName", "productName"),
   ("brand", "brand"),
   ("brandName", "brandName"),
   ("seller", "seller"),
   ("sellerName", "sellerName"),
   ("currentPrice", "currentPrice"),
   ("originalPrice", "originalPrice"),
   ("discountPercentage", "discountPercentage"),
   ("currency", "currency"),
   ("minPrice", "minPrice"),
   ("maxPrice", "maxPrice"),
   ("alertsEnabled", "alertsEnabled"),
   ("availability", "availability"),
   ("imageUrl", "product_image_url"),
   ("product_image_url", "product_image_url"),
   ("shippingInfo", "shippingInfo"),
   ("shippingCost", "shippingCost"),
   ("deliveryTime", "deliveryTime"),
   ("review_score", "review_score"),
   ("installmentOptions", "installmentOptions"),
   ("kit", "kit"),
   ("unitMeasurement", "unitMeasurement"),
   ("outOfStockReason", "outOfStockReason"),
   ("marketplaceWebsite", "marketplaceWebsite"),
   ("sku", "sku"),
   ("ean", "ean"),
   ("stockQuantity", "stockQuantity"),
   ("otherPaymentMethods", "otherPaymentMethods"),
   ("promotionDetails", "promotionDetails"),
   ("businessId", "businessId"),
   ("businessName", "businessName"),
   ("channelId", "channelId"),
   ("channelName", "channelName"),
   ("familyId", "familyId"),
   ("familyName", "familyName")]

/-- An input item, observed only through `item.get(key)` (a missing key and
an explicit `None` are indistinguishable there, both read as `vNone`). -/
abbrev Item := String → PyVal

/-- `extract_initial_data` (modal_scraper.py, lines 1554-1626): walk the
field mappings, copying each non-`None` input value to its output field
unless that output field was already filled by an earlier mapping. -/
def extract_initial_data (item : Item) : PyDict :=
  field_mappings.foldl
    (fun acc fm =>
      if item fm.1 ≠ vNone ∧ (dget acc fm.2).isNone
      then dset acc fm.2 (item fm.1) else acc)
    []

/-- Python's `x or default` on an optional string (`None` and `""` are falsy). -/
def pyOrStr (x : Option String) (dflt : String) : String :=
  match x with
  | some s => if s = "" then dflt else s
  | Option.none => dflt

/-- Round to the nearest integer with ties to even: Python's `round` on an
exact rational value. -/
def pyRound (x : ℚ) : ℤ :=
  if x - ⌊x⌋ < 1/2 then ⌊x⌋
  else if x - ⌊x⌋ > 1/2 then ⌊x⌋ + 1
  else if 2 ∣ ⌊x⌋ then ⌊x⌋ else ⌊x⌋ + 1

/-- Python `round(x, 2)` on an exact rational value. -/
def round2 (x : ℚ) : ℚ := pyRound (x * 100) / 100

/-- The alert payload built by `check_price_alert`. -/
structure Alert where
  type : String
  currentPrice : ℚ
  priceLimit : ℚ
  breachAmount : ℚ
  breachPercentage : ℚ
  deriving DecidableEq, Repr

/-- Read a numeric record field; the price fields of scrape records are
numbers, and a missing field or `None` reads as absent. -/
def pyGetNum (d : PyDict) (k : String) : Option ℚ :=
  match pyGet d k with
  | vNum q => some q
  | _ => Option.none

/-- The min-price branch of `check_price_alert` (modal_scraper.py, lines
1667-1677): alert when the price dropped below the configured minimum. -/
def min_breach_alert (current_price : ℚ) (min_price : Option ℚ) : Option Alert :=
  match min_price with
  | some m =>
    if current_price < m then
      some { type := "price_min_breach", currentPrice := current_price,
             priceLimit := m, breachAmount := round2 (m - current_price),
             breachPercentage := round2 ((m - current_price) / m * 100) }
    else Option.none
  | Option.none => Option.none

/-- The max-price branch of `check_price_alert` (modal_scraper.py, lines
1679-1689): alert when the price went above the configured maximum. -/
def max_breach_alert (current_price : ℚ) (max_price : Option ℚ) : Option Alert :=
  match max_price with
  | some mx =>
    if current_price > mx then
      some { type := "price_max_breach", currentPrice := current_price,
             priceLimit := mx, breachAmount := round2 (current_price - mx),
             breachPercentage := round2 ((current_price - mx) / mx * 100) }
    else Option.none
  | Option.none => Option.none

/-- `check_price_alert` (modal_scraper.py, lines 1649-1691): no alert unless
`alertsEnabled` is truthy and a current price is present; the min-price
check runs first and returns if it fires, else the max-price check runs. -/
def check_price_alert (result : PyDict) : Option Alert :=
  if ¬ pyTruthy (pyGet result "alertsEnabled") then Option.none
  else
    match pyGetNum result "currentPrice" with
    | Option.none => Option.none
    | some current_price =>
      match min_breach_alert current_price (pyGetNum result "minPrice") with
      | some a => some a
      | Option.none => max_breach_alert current_price (pyGetNum result "maxPrice")

/-- The job fields that determine and carry the completion outcome.  The
wall-clock timestamp and duration bookkeeping of the source's JobRecord is
external input and is not modelled. -/
structure JobRecord where
  jobId : String
  status : String
  totalUrls : ℕ
  completedUrls : ℕ := 0
  failedUrls : ℕ := 0
  withScreenshots : ℕ := 0
  errorMessage : Option String := Option.none
  deriving DecidableEq, Repr

/-- `TinybirdJobManager.complete_job` (modal_scraper.py, lines 2488-2526),
its status-determining part: counts are written, then the final status is
`failed` when `failed_urls == totalUrls`, else `partial` when any failed,
else `completed`. -/
def complete_job (job : JobRecord) (completed_urls failed_urls with_screenshots : ℕ)
    (error_message : Option String) : JobRecord :=
  let job' : JobRecord :=
    { job with completedUrls := completed_urls, failedUrls := failed_urls,
               withScreenshots := with_screenshots }
  if failed_urls = job'.totalUrls then
    { job' with status := "failed", errorMessage := some (pyOrStr error_message "All URLs failed") }
  else if failed_urls > 0 then { job' with status := "partial" }
  else { job' with status := "completed" }

/-- The scrape-outcome fields that `extract_initial_data` must never map:
they always reflect the actual scrape, not the input item. -/
def frame_keys : List String :=
  ["status", "errorMessage", "method", "attempts", "errors", "screenshotUrl", "scrapedAt"]

/-- The Scenario C input item: task override `{minPrice:100, alertsEnabled:true}`. -/
def scenC_item : Item := fun k =>
  if k = "minPrice" then vNum 100
  else if k = "alertsEnabled" then vBool true
  else vNone

/-- The Scenario C merged record: scraped `currentPrice=90` merged with the
override dict extracted from the Scenario C item. -/
def scenC_record : PyDict :=
  merge_with_initial_data [("currentPrice", vNum 90)] (extract_initial_data scenC_item)

/-- TinybirdBatcher configuration (modal_scraper.py, lines 834-846), plus
whether the TINYBIRD_TOKEN environment variable is configured (read at
line 990). -/
structure BatcherCfg where
  batch_size : ℕ
  flush_timeout : ℚ
  max_retries : ℕ
  base_delay : ℚ
  max_delay : ℚ
  tokenPresent : Bool
  deriving DecidableEq, Repr

/-- The default batcher constants (modal_scraper.py, lines 127-131). -/
def tinybird_defaults (tokenPresent : Bool) : BatcherCfg :=
  { batch_size := 10, flush_timeout := 30, max_retries := 3,
    base_delay := 1, max_delay := 10, tokenPresent := tokenPresent }

/-- One response of the ingestion endpoint as the retry loop observes it:
an HTTP status (with an optional Retry-After header), a client timeout, or
some other raised exception. -/
inductive TbResponse where
  | http (code : ℕ) (retryAfter : Option ℚ)
  | timeout
  | exn (msg : String)
  deriving DecidableEq, Repr

/-- `TinybirdBatcher._calculate_delay` (modal_scraper.py, lines 1078-1082):
exponential backoff capped at `max_delay`, plus up to 30% jitter; `u` is the
uniform draw in `[0,1]` scaling the jitter. -/
def calculate_delay (cfg : BatcherCfg) (attempt : ℕ) (u : ℚ) : ℚ :=
  let delay := min (cfg.base_delay * 2 ^ (attempt - 1)) cfg.max_delay
  delay + delay * (3/10) * u

/-- The delay computed and logged on a rate-limit response (modal_scraper.py,
line 1050): the server's Retry-After when present, else the backoff.  This
value is only printed; the sleep at line 1071 recomputes the backoff. -/
def rate_limit_logged_delay (cfg : BatcherCfg) (attempt : ℕ) (u : ℚ)
    (retryAfter : Option ℚ) : ℚ :=
  match retryAfter with
  | some t => t
  | Option.none => calculate_delay cfg attempt u

/-- What one run of the delivery retry loop did. -/
structure SendOutcome where
  success : Bool
  attemptsMade : ℕ
  sleeps : List ℚ
  deriving DecidableEq, Repr

/-- The success test of the delivery loop (modal_scraper.py, line 1039):
only HTTP 200/202 end the loop; a 429, any other status, a timeout or an
exception all fall through to the shared retry tail. -/
def is_success_response : TbResponse → Bool
  | TbResponse.http code _ => code = 200 || code = 202
  | TbResponse.timeout => false
  | TbResponse.exn _ => false

/-- The body of `_send_batch_with_retry`'s loop (modal_scraper.py, lines
1027-1076), by remaining fuel: each attempt posts the batch; 200/202 ends
with success; any other response (429 included, whose line-1050 delay is
only printed), a timeout or an exception falls through to the backoff sleep
at line 1071 when attempts remain, else the loop ends in failure. -/
def send_attempts (cfg : BatcherCfg) (resp : ℕ → TbResponse) (u : ℕ → ℚ) :
    ℕ → ℕ → SendOutcome
  | _, 0 => { success := false, attemptsMade := 0, sleeps := [] }
  | attempt, fuel + 1 =>
    if is_success_response (resp attempt) then
      { success := true, attemptsMade := 1, sleeps := [] }
    else if attempt < cfg.max_retries then
      let rest := send_attempts cfg resp u (attempt + 1) fuel
      { success := rest.success, attemptsMade := rest.attemptsMade + 1,
        sleeps := calculate_delay cfg attempt (u attempt) :: rest.sleeps }
    else { success := false, attemptsMade := 1, sleeps := [] }

/-- `TinybirdBatcher._send_batch_with_retry` (modal_scraper.py, lines
1005-1076): attempts run `for attempt in range(1, max_retries + 1)`.  The
batch itself only shapes the payload, not the control flow. -/
def send_batch_with_retry (cfg : BatcherCfg) (batch : List PyDict)
    (resp : ℕ → TbResponse) (u : ℕ → ℚ) : SendOutcome :=
  send_attempts cfg resp u 1 cfg.max_retries

/-- The mutable TinybirdBatcher state (modal_scraper.py, lines 847-858). -/
structure BatcherState where
  buffer : List PyDict
  last_add_time : ℚ
  total_records : ℕ
  total_batches : ℕ
  failed_batches : ℕ
  deriving DecidableEq, Repr

/-- The freshly constructed batcher (modal_scraper.py, lines 847-858). -/
def initial_batcher_state : BatcherState :=
  { buffer := [], last_add_time := 0, total_records := 0,
    total_batches := 0, failed_batches := 0 }

/-- `TinybirdBatcher._flush_internal` (modal_scraper.py, lines 985-1003):
nothing on an empty buffer; without a token the batch is discarded unsent;
otherwise the buffer is captured, cleared, handed to the retry sender, and
the batch/failure counters updated.  The second component lists the batches
handed to `_send_batch_with_retry`. -/
def flush_internal (cfg : BatcherCfg) (st : BatcherState)
    (resp : ℕ → TbResponse) (u : ℕ → ℚ) : BatcherState × List (List PyDict) :=
  if st.buffer = [] then (st, [])
  else if cfg.tokenPresent = false then ({ st with buffer := [] }, [])
  else
    let batch := st.buffer
    let outcome := send_batch_with_retry cfg batch resp u
    ({ st with buffer := [],
               total_batches := st.total_batches + 1,
               failed_batches := st.failed_batches + (if outcome.success then 0 else 1) },
     [batch])

/-- `TinybirdBatcher.add` (modal_scraper.py, lines 963-977): prepare the
record, append it, stamp the add time, and flush immediately once the buffer
has reached `batch_size`.  `prepare` is `_prepare_record`, the sink-schema
projection, kept abstract as it is one record in, one record out. -/
def add (cfg : BatcherCfg) (prepare : PyDict → PyDict) (st : BatcherState)
    (scrape_result : PyDict) (now : ℚ) (resp : ℕ → TbResponse) (u : ℕ → ℚ) :
    BatcherState × List (List PyDict) :=
  let record := prepare scrape_result
  let st' : BatcherState :=
    { st with buffer := st.buffer ++ [record], last_add_time := now,
              total_records := st.total_records + 1 }
  if cfg.batch_size ≤ st'.buffer.length then flush_internal cfg st' resp u
  else (st', [])

/-- `TinybirdBatcher.flush` (modal_scraper.py, lines 979-983): flush only a
non-empty buffer; the context-exit teardown calls this too (line 877). -/
def flush (cfg : BatcherCfg) (st : BatcherState)
    (resp : ℕ → TbResponse) (u : ℕ → ℚ) : BatcherState × List (List PyDict) :=
  if st.buffer ≠ [] then flush_internal cfg st resp u else (st, [])

/-- One wake-up of `TinybirdBatcher._flush_timer` (modal_scraper.py, lines
894-904): flush only when the buffer is non-empty and at least
`flush_timeout` has elapsed since the last add. -/
def flush_timer_tick (cfg : BatcherCfg) (st : BatcherState) (now : ℚ)
    (resp : ℕ → TbResponse) (u : ℕ → ℚ) : BatcherState × List (List PyDict) :=
  if st.buffer ≠ [] ∧ cfg.flush_timeout ≤ now - st.last_add_time then
    flush_internal cfg st resp u
  else (st, [])

/-- Adding a sequence of records one by one, accumulating emitted batches. -/
def add_all (cfg : BatcherCfg) (prepare : PyDict → PyDict) (st : BatcherState)
    (rs : List PyDict) (now : ℚ) (resp : ℕ → TbResponse) (u : ℕ → ℚ) :
    BatcherState × List (List PyDict) :=
  rs.foldl
    (fun acc r =>
      let step := add cfg prepare acc.1 r now resp u
      (step.1, acc.2 ++ step.2))
    (st, [])

/-- The state an `add` leaves when it does not trigger a flush. -/
def add_no_flush_state (prepare : PyDict → PyDict) (st : BatcherState)
    (scrape_result : PyDict) (now : ℚ) : BatcherState :=
  { st with
      buffer := st.buffer ++ [prepare scrape_result]
      last_add_time := now
      total_records := st.total_records + 1 }

/-- The Scenario E endpoint: HTTP 500 on the first three attempts, HTTP 200
from the fourth on. -/
def scenE_resp : ℕ → TbResponse := fun n =>
  if n ≤ 3 then TbResponse.http 500 Option.none else TbResponse.http 200 Option.none

/-- The C1 counter-scenario endpoint: attempt 1 is rate-limited with a
server-supplied `Retry-After: 100`, later attempts fail with HTTP 500. -/
def c1_resp : ℕ → TbResponse := fun n =>
  if n = 1 then TbResponse.http 429 (some 100) else TbResponse.http 500 Option.none

/-- The three fetch providers (METHOD_* constants, modal_scraper.py, lines
108-110). -/
inductive Method where
  | firecrawl
  | brightdata
  | playwright
  deriving DecidableEq, Repr

/-- The method key strings (modal_scraper.py, lines 108-110). -/
def methodKey : Method → String
  | Method.firecrawl => "firecrawl"
  | Method.brightdata => "brightdata"
  | Method.playwright => "playwright"

/-- The display names used in the attempts log (modal_scraper.py, lines
1896-1900). -/
def methodName : Method → String
  | Method.firecrawl => "Firecrawl"
  | Method.brightdata => "Bright Data"
  | Method.playwright => "Playwright"

/-- The label appended to `result.attempts` for one attempt (modal_scraper.py,
lines 1946-1949). -/
def attemptLabel (m : Method) (retry : ℕ) : String :=
  if retry = 0 then methodName m
  else methodName m ++ " (retry " ++ toString retry ++ ")"

/-- What processing a present screenshot did (modal_scraper.py, lines
1984-2005): the upload produced a URL, the upload returned an error, or
compression/processing raised. -/
inductive ScreenshotOutcome where
  | uploaded (url : String)
  | uploadErr (err : String)
  | procExn (msg : String)
  deriving DecidableEq, Repr

/-- The payload of a successful fetch, together with what the deterministic
downstream steps on this attempt's payload yield: the adapter-reported
method string, the screenshot-processing outcome when screenshot bytes are
present, and the extraction call's product data and error (modal_scraper.py,
lines 1982-2010). -/
structure FetchedData where
  resMethod : String
  screenshot : Option ScreenshotOutcome
  productData : Option PyDict
  extractionError : Option String
  deriving DecidableEq, Repr

/-- One provider-adapter call as `scrape_url` observes it (modal_scraper.py,
lines 1951-1976): the call raised, returned `success=False` with an optional
error message, or fetched. -/
inductive AttemptOutcome where
  | exn (msg : String)
  | failed (err : Option String)
  | fetched (f : FetchedData)
  deriving DecidableEq, Repr

/-- The extraction success test (modal_scraper.py, line 2012):
`product_data and (product_data.get("currentPrice") or
product_data.get("originalPrice"))`. -/
def extraction_found_price (productData : Option PyDict) : Bool :=
  match productData with
  | some d => d ≠ [] && (pyTruthy (pyGet d "currentPrice") || pyTruthy (pyGet d "originalPrice"))
  | Option.none => false

/-- Python truthiness of an optional string (`if screenshot_url:`). -/
def truthyStrOpt : Option String → Bool
  | some s => s ≠ ""
  | Option.none => false

/-- The product fields copied onto the result on success (modal_scraper.py,
lines 2021-2026). -/
def product_field_names : List String :=
  ["productTitle", "brand", "currentPrice", "originalPrice",
   "discountPercentage", "currency", "availability", "product_image_url",
   "seller", "shippingInfo", "shippingCost", "deliveryTime",
   "review_score", "installmentOptions", "kit", "unitMeasurement",
   "outOfStockReason", "marketplaceWebsite", "sku", "ean",
   "stockQuantity", "otherPaymentMethods", "promotionDetails"]

/-- The `ScrapeResult` fields `scrape_url` manipulates (modal_scraper.py,
lines 186-233).  The 23 product fields set on success live in
`productFields` (by field name, `vNone` for an unset attribute); the fields
`scrape_url` never assigns (alertId through familyName) stay `None` there
and are omitted. -/
structure ScrapeResult where
  urlId : String
  url : String
  status : String
  scrapedAt : ℚ
  errorMessage : Option String
  screenshotUrl : Option String
  method : Option String
  attempts : List String
  errors : Option (List ErrEntry)
  productFields : String → PyVal

/-- Reading a `ScrapeResult` attribute for `to_dict`'s loop: `None`
attributes read as `Option.none` and are skipped. -/
def scrape_attr (r : ScrapeResult) : String → Option PyVal := fun k =>
  if k = "errorMessage" then r.errorMessage.map vStr
  else if k = "screenshotUrl" then r.screenshotUrl.map vStr
  else if k = "method" then r.method.map vStr
  else if k = "attempts" then some (vStrList r.attempts)
  else if k = "errors" then r.errors.map vErrList
  else if k ∈ product_field_names then
    match r.productFields k with
    | vNone => Option.none
    | v => some v
  else Option.none

/-- The optional-field order of `ScrapeResult.to_dict` (modal_scraper.py,
lines 241-250). -/
def to_dict_field_names : List String :=
  ["errorMessage", "screenshotUrl"] ++ product_field_names ++
  ["method", "attempts", "errors", "alertId", "companyName", "hasAlert", "screenshotId",
   "businessId", "businessName", "channelId", "channelName", "familyId", "familyName"]

/-- `ScrapeResult.to_dict` (modal_scraper.py, lines 234-254): the four
always-present keys, then every optional field in source order when its
attribute is not `None`. -/
def ScrapeResult.to_dict (r : ScrapeResult) : PyDict :=
  to_dict_field_names.foldl
    (fun acc k =>
      match scrape_attr r k with
      | some v => dset acc k v
      | Option.none => acc)
    [("urlId", vStr r.urlId), ("productUrl", vStr r.url),
     ("status", vStr r.status), ("scrapedAt", vNum r.scrapedAt)]

/-- The routing inputs of `scrape_url` (modal_scraper.py, lines 1865-1921):
per-method retry budgets from the environment, the parsed user preference,
the URL-pattern rule, and the configured primary scraper. -/
structure ScrapeCfg where
  retries : Method → ℕ
  preferred : Option Method
  url_forced_brightdata : Bool
  primary : String

/-- Attempt-order resolution (modal_scraper.py, lines 1907-1921): an
explicit preference goes first followed by the default order without it;
else the URL rule forces Bright Data first; else the primary scraper picks
one of the two canonical orders. -/
def build_attempt_order (cfg : ScrapeCfg) : List Method :=
  match cfg.preferred with
  | some m =>
    m :: ([Method.firecrawl, Method.brightdata, Method.playwright].filter (fun d => d ≠ m))
  | Option.none =>
    if cfg.url_forced_brightdata then [Method.brightdata, Method.firecrawl, Method.playwright]
    else if cfg.primary = "brightdata" then
      [Method.brightdata, Method.firecrawl, Method.playwright]
    else [Method.firecrawl, Method.brightdata, Method.playwright]

/-- The zero-budget filter (modal_scraper.py, line 1924). -/
def resolved_order (cfg : ScrapeCfg) : List Method :=
  (build_attempt_order cfg).filter (fun m => 0 < cfg.retries m)

/-- What one provider's retry loop (modal_scraper.py, lines 1942-1976)
accumulated: attempt labels, error entries, the updated last error, the
fetch payload when an attempt succeeded, and the adapter calls made. -/
structure RetryLoopOut where
  labels : List String
  errs : List ErrEntry
  lastError : Option String
  outcome : Option FetchedData
  calls : List (Method × ℕ)

/-- One provider's retry loop (modal_scraper.py, lines 1942-1976), by
remaining budget: each iteration logs its attempt label and calls the
adapter; an exception or a failed fetch records an error entry, updates the
last error and retries while budget remains; a successful fetch ends the
loop at once. -/
def run_retries (oracle : Method → ℕ → AttemptOutcome) (m : Method) :
    Option String → ℕ → ℕ → RetryLoopOut
  | lastErr, _, 0 =>
    { labels := [], errs := [], lastError := lastErr, outcome := Option.none, calls := [] }
  | lastErr, retry, fuel + 1 =>
    let label := attemptLabel m retry
    match oracle m retry with
    | AttemptOutcome.exn msg =>
      let error_msg := methodName m ++ " exception: " ++ msg.take 200
      let rest := run_retries oracle m (some error_msg) (retry + 1) fuel
      { labels := label :: rest.labels
        errs := { method := methodKey m, operation := "scrape", error := error_msg } :: rest.errs
        lastError := rest.lastError
        outcome := rest.outcome
        calls := (m, retry) :: rest.calls }
    | AttemptOutcome.failed err =>
      let rest := run_retries oracle m err (retry + 1) fuel
      { labels := label :: rest.labels
        errs := { method := methodKey m, operation := "scrape",
                  error := err.getD "Unknown error" } :: rest.errs
        lastError := rest.lastError
        outcome := rest.outcome
        calls := (m, retry) :: rest.calls }
    | AttemptOutcome.fetched f =>
      { labels := [label], errs := [], lastError := lastErr,
        outcome := some f, calls := [(m, retry)] }

/-- Screenshot processing of a successful attempt (modal_scraper.py, lines
1982-2005): an uploaded screenshot yields the URL and updates the last
successful URL; an upload error or a processing exception only logs. -/
def screenshot_step (m : Method) (s : Option ScreenshotOutcome) (lastScr : Option String) :
    Option String × List ErrEntry × Option String :=
  match s with
  | Option.none => (Option.none, [], lastScr)
  | some (ScreenshotOutcome.uploaded url) => (some url, [], some url)
  | some (ScreenshotOutcome.uploadErr e) =>
    (Option.none, [{ method := "r2", operation := "upload", error := e }], lastScr)
  | some (ScreenshotOutcome.procExn e) =>
    (Option.none,
     [{ method := methodKey m, operation := "screenshot_process", error := e.take 200 }],
     lastScr)

/-- The cross-provider loop state: accumulated attempt labels, error
entries, last error and last successfully obtained screenshot URL. -/
structure LoopState where
  attempts : List String
  errs : List ErrEntry
  lastError : Option String
  lastScreenshotUrl : Option String

/-- The main provider loop of `scrape_url` (modal_scraper.py, lines
1935-2060): run each remaining provider's retry loop; on a successful fetch
process the screenshot, then run extraction once — a found price finalizes
the completed record immediately, an extraction failure logs a gemini error
entry and advances to the next provider without retrying it; an exhausted
list finalizes the error record with method "erro" and the most recent
error.  The second component lists adapter calls in invocation order. -/
def scrape_methods_loop (cfg : ScrapeCfg) (oracle : Method → ℕ → AttemptOutcome)
    (base : ScrapeResult) : List Method → LoopState → ScrapeResult × List (Method × ℕ)
  | [], st =>
    ({ base with
         status := "error"
         method := some "erro"
         errorMessage := some (pyOrStr st.lastError "All methods failed")
         screenshotUrl := st.lastScreenshotUrl
         attempts := st.attempts
         errors := some st.errs }, [])
  | m :: rest, st =>
    let lo := run_retries oracle m st.lastError 0 (cfg.retries m)
    let st' : LoopState :=
      { attempts := st.attempts ++ lo.labels
        errs := st.errs ++ lo.errs
        lastError := lo.lastError
        lastScreenshotUrl := st.lastScreenshotUrl }
    match lo.outcome with
    | Option.none =>
      let next := scrape_methods_loop cfg oracle base rest st'
      (next.1, lo.calls ++ next.2)
    | some f =>
      let scr := screenshot_step m f.screenshot st'.lastScreenshotUrl
      let errs2 := st'.errs ++ scr.2.1
      if extraction_found_price f.productData then
        ({ base with
             status := "completed"
             method := some f.resMethod
             screenshotUrl := scr.1
             attempts := st'.attempts
             errors := if errs2 = [] then Option.none else some errs2
             productFields := fun k =>
               if k ∈ product_field_names then pyGet (f.productData.getD []) k else vNone },
         lo.calls)
      else
        let err_msg := (f.extractionError.getD "Could not extract price")
        let entry : ErrEntry :=
          { method := "gemini", operation := "extraction", error := err_msg
            screenshotUrl := if truthyStrOpt scr.1 then scr.1 else Option.none }
        let st2 : LoopState :=
          { attempts := st'.attempts
            errs := errs2 ++ [entry]
            lastError := some err_msg
            lastScreenshotUrl := if truthyStrOpt scr.1 then scr.1 else scr.2.2 }
        let next := scrape_methods_loop cfg oracle base rest st2
        (next.1, lo.calls ++ next.2)

/-- `scrape_url` without the final override merge (modal_scraper.py, lines
1855-2060): build the fresh error-status record, resolve and filter the
attempt order; an empty resolved order returns the configuration-error
record at once with no adapter call, else the provider loop runs.  The
second component lists every provider-adapter invocation made. -/
def scrape_url_result (cfg : ScrapeCfg) (oracle : Method → ℕ → AttemptOutcome)
    (url_id url : String) (scraped_at : ℚ) : ScrapeResult × List (Method × ℕ) :=
  let base : ScrapeResult :=
    { urlId := url_id, url := url, status := "error", scrapedAt := scraped_at,
      errorMessage := Option.none, screenshotUrl := Option.none, method := Option.none,
      attempts := [], errors := some [], productFields := fun _ => vNone }
  let attempt_order := resolved_order cfg
  if attempt_order = [] then
    ({ base with
         status := "error"
         errorMessage := some "All scraping methods are disabled (all retry counts set to 0)" },
     [])
  else
    scrape_methods_loop cfg oracle base attempt_order
      { attempts := [], errs := [], lastError := Option.none,
        lastScreenshotUrl := Option.none }

/-- `scrape_url` (modal_scraper.py, lines 1855-2060): every return path
merges the record's dict with the caller-supplied initial data. -/
def scrape_url (cfg : ScrapeCfg) (oracle : Method → ℕ → AttemptOutcome)
    (url_id url : String) (scraped_at : ℚ) (initial_data : PyDict) : PyDict :=
  merge_with_initial_data
    (scrape_url_result cfg oracle url_id url scraped_at).1.to_dict initial_data

/-- The Scenario A routing config: three providers in the default
Firecrawl-first order with retry budgets [1, 3, 2]. -/
def cfgA : ScrapeCfg :=
  { retries := fun m => match m with
      | Method.firecrawl => 1
      | Method.brightdata => 3
      | Method.playwright => 2
    preferred := Option.none
    url_forced_brightdata := false
    primary := "firecrawl" }

/-- The Scenario A adapter behaviour: provider 1 fails transport once,
provider 2 fails the content-size check then fetches but extraction finds
no price, provider 3 fetches and extraction finds a price. -/
def oracleA : Method → ℕ → AttemptOutcome := fun m retry =>
  match m, retry with
  | Method.firecrawl, 0 => AttemptOutcome.failed (some "Connection timeout")
  | Method.brightdata, 0 =>
    AttemptOutcome.failed (some "Response too small: possible block page")
  | Method.brightdata, 1 =>
    AttemptOutcome.fetched
      { resMethod := "brightdata", screenshot := Option.none,
        productData := Option.none, extractionError := some "No price found in page" }
  | Method.playwright, 0 =>
    AttemptOutcome.fetched
      { resMethod := "playwright", screenshot := Option.none,
        productData := some [("currentPrice", vNum 50)], extractionError := Option.none }
  | _, _ => AttemptOutcome.exn "unused"

/-- The record `scrape_url` builds when every method is disabled
(modal_scraper.py, lines 1926-1930). -/
def all_disabled_result (uid url : String) (t : ℚ) : ScrapeResult :=
  { urlId := uid, url := url, status := "error", scrapedAt := t,
    errorMessage := some "All scraping methods are disabled (all retry counts set to 0)",
    screenshotUrl := Option.none, method := Option.none,
    attempts := [], errors := some [], productFields := fun _ => vNone }

/-- Python `str.strip()`: drop whitespace from both ends. -/
def pyStrip (s : String) : String :=
  ⟨((s.data.dropWhile Char.isWhitespace).reverse.dropWhile Char.isWhitespace).reverse⟩

/-- `extract_url_from_item` (modal_scraper.py, lines 1540-1551): the first
truthy of `url`/`productUrl`, valid only when a string whose strip is
non-empty; the stripped URL is returned. -/
def extract_url_from_item (item : Item) : Option String :=
  let url := if pyTruthy (item "url") then item "url" else item "productUrl"
  match url with
  | vStr s => if pyStrip s ≠ "" then some (pyStrip s) else Option.none
  | _ => Option.none

/-- One normalized input item as `process_batch` builds it (modal_scraper.py,
lines 2127-2153). -/
structure ProcessedItem where
  url_id : PyVal
  url : String
  method : PyVal
  initial_data : PyDict

/-- The pre-processing loop of `process_batch` (modal_scraper.py, lines
2127-2153): items without a usable URL or a truthy `urlId` are dropped with
a warning; the rest keep their id, URL, method preference and extracted
override dict, in input order. -/
def normalize_items (items : List Item) : List ProcessedItem :=
  items.filterMap (fun item =>
    match extract_url_from_item item with
    | Option.none => Option.none
    | some url =>
      let url_id := item "urlId"
      if ¬ pyTruthy url_id then Option.none
      else some { url_id := url_id, url := url, method := item "method",
                  initial_data := extract_initial_data item })

/-- `process_batch`'s fan-out and result collection (modal_scraper.py, lines
2156-2188): one unit of work per normalized item; `asyncio.gather` returns
results in task order, so the outcome oracle is indexed by the item's
position; a unit that raised is converted into a synthetic error record
(urlId, productUrl, status error, truncated exception text, scrapedAt)
merged with that item's override dict. -/
def process_batch (items : List Item) (outcome : ℕ → Except String PyDict)
    (now : ℚ) : List PyDict :=
  let processed := normalize_items items
  processed.enum.map (fun pair =>
    match outcome pair.1 with
    | Except.ok r => r
    | Except.error msg =>
      merge_with_initial_data
        [("urlId", pair.2.url_id), ("productUrl", vStr pair.2.url),
         ("status", vStr "error"), ("errorMessage", vStr (msg.take 200)),
         ("scrapedAt", vNum now)]
        pair.2.initial_data)

/-- A single valid input item used to witness the scheduler claims. -/
def itemW : Item := fun k =>
  if k = "url" then vStr "https://e.com"
  else if k = "urlId" then vStr "id1"
  else vNone

theorem dget_dset_self (d : PyDict) (k : String) (v : PyVal) :
    dget (dset d k v) k = some v := by
  unfold dset dget
  split
  · rename_i h
    rw [List.find?_map]
    have hpred : (fun p : String × PyVal => decide (p.1 = k)) ∘
        (fun p : String × PyVal => if p.1 = k then (k, v) else p) =
        fun p : String × PyVal => decide (p.1 = k) := by
      funext p
      by_cases hp : p.1 = k <;> simp [hp]
    rw [hpred]
    have hsome : (d.find? (fun p => decide (p.1 = k))).isSome := by
      rw [List.find?_isSome]
      simp only [List.any_eq_true, decide_eq_true_eq] at h
      obtain ⟨p, hp, hpk⟩ := h
      exact ⟨p, hp, by simpa using hpk⟩
    obtain ⟨p, hp⟩ := Option.isSome_iff_exists.mp hsome
    have hpk : p.1 = k := by simpa using List.find?_some hp
    rw [hp]
    simp [hpk]
  · rw [List.find?_append]
    rename_i h
    have hnone : d.find? (fun p => decide (p.1 = k)) = Option.none := by
      rcases hcase : d.find? (fun p => decide (p.1 = k)) with _ | p
      · exact hcase
      · exfalso
        apply h
        simp only [List.any_eq_true, decide_eq_true_eq]
        exact ⟨p, List.mem_of_find?_eq_some hcase, by simpa using List.find?_some hcase⟩
    rw [hnone]
    simp [List.find?]

theorem dget_dset_ne (d : PyDict) (k k' : String) (v : PyVal) (hk : k ≠ k') :
    dget (dset d k' v) k = dget d k := by
  unfold dset dget
  split
  · rw [List.find?_map]
    have hpred : (fun p : String × PyVal => decide (p.1 = k)) ∘
        (fun p : String × PyVal => if p.1 = k' then (k', v) else p) =
        fun p : String × PyVal => decide (p.1 = k) := by
      funext p
      by_cases hp : p.1 = k'
      · simp [hp, Ne.symm hk]
      · simp [hp]
    rw [hpred]
    rcases hcase : d.find? (fun p => decide (p.1 = k)) with _ | p
    · rw [hcase]; rfl
    · rw [hcase]
      have hpk : p.1 = k := by simpa using List.find?_some hcase
      have : p.1 ≠ k' := hpk ▸ hk
      simp [this]
  · rw [List.find?_append]
    have : List.find? (fun p => decide (p.1 = k)) [(k', v)] = Option.none := by
      simp [List.find?, Ne.symm hk]
    rw [this]
    cases d.find? (fun p => decide (p.1 = k)) <;> rfl

theorem dget_dset_cases (d : PyDict) (k k' : String) (v : PyVal) :
    dget (dset d k' v) k = if k = k' then some v else dget d k := by
  by_cases h : k = k'
  · subst h; simp [dget_dset_self]
  · simp [h, dget_dset_ne d k k' v h]

theorem merge_eq_foldl (result initial : PyDict) :
    merge_with_initial_data result initial =
      initial.foldl
        (fun merged kv => if kv.2 ≠ vNone then dset merged kv.1 kv.2 else merged)
        result := by
  unfold merge_with_initial_data
  split
  · rename_i h; rw [h]; rfl
  · rfl

/-- Keys absent from the override dict are untouched by the merge fold. -/
theorem merge_foldl_frame (initial : PyDict) :
    ∀ (result : PyDict) (k : String), k ∉ initial.map Prod.fst →
      dget (initial.foldl
        (fun merged kv => if kv.2 ≠ vNone then dset merged kv.1 kv.2 else merged)
        result) k = dget result k := by
  induction initial with
  | nil => intro result k _; rfl
  | cons kv rest ih =>
    intro result k hk
    simp only [List.map_cons, List.mem_cons] at hk
    push_neg at hk
    simp only [List.foldl_cons]
    rw [ih _ k hk.2]
    by_cases hv : kv.2 ≠ vNone
    · rw [if_pos hv, dget_dset_ne _ _ _ _ hk.1]
    · rw [if_neg hv]

/-- The merge honours the override dict: any key it binds to a non-`None`
value reads back as that value after the merge (override dicts are Python
dicts, so their key sequence has no duplicates). -/
theorem merge_overrides (initial : PyDict) :
    ∀ (result : PyDict) (k : String) (v : PyVal),
      (initial.map Prod.fst).Nodup → (k, v) ∈ initial → v ≠ vNone →
      dget (merge_with_initial_data result initial) k = some v := by
  induction initial with
  | nil => intro result k v _ hmem _; cases hmem
  | cons kv rest ih =>
    intro result k v hnodup hmem hv
    rw [merge_eq_foldl]
    simp only [List.map_cons, List.nodup_cons] at hnodup
    simp only [List.foldl_cons]
    rcases List.mem_cons.mp hmem with hhead | htail
    · have hk : kv = (k, v) := hhead.symm
      subst hk
      rw [merge_foldl_frame rest _ k hnodup.1, if_pos hv, dget_dset_self]
    · rw [← merge_eq_foldl]
      exact ih _ k v hnodup.2 htail hv

/-- Every key the extraction fold can introduce is an output field of the
mapping table it walked. -/
theorem extract_fold_keys (item : Item) (l : List (String × String)) :
    ∀ (acc : PyDict) (k : String),
      (dget (l.foldl
        (fun acc fm =>
          if item fm.1 ≠ vNone ∧ (dget acc fm.2).isNone
          then dset acc fm.2 (item fm.1) else acc)
        acc) k).isSome →
      (dget acc k).isSome ∨ k ∈ l.map Prod.snd := by
  induction l with
  | nil => intro acc k h; exact Or.inl h
  | cons fm rest ih =>
    intro acc k h
    simp only [List.foldl_cons] at h
    rcases ih _ k h with hacc | hrest
    · by_cases hcond : item fm.1 ≠ vNone ∧ (dget acc fm.2).isNone
      · rw [if_pos hcond] at hacc
        by_cases hk : k = fm.2
        · exact Or.inr (by simp [hk])
        · rw [dget_dset_ne _ _ _ _ hk] at hacc
          exact Or.inl hacc
      · rw [if_neg hcond] at hacc
        exact Or.inl hacc
    · exact Or.inr (by simp [hrest])

/-- The override dict built from an input item binds only output fields of
`field_mappings`. -/
theorem extract_initial_data_keys (item : Item) (k : String) :
    (dget (extract_initial_data item) k).isSome → k ∈ field_mappings.map Prod.snd := by
  intro h
  rcases extract_fold_keys item field_mappings [] k h with hacc | hmem
  · simp [dget, List.find?] at hacc
  · exact hmem

theorem dget_isSome_iff_mem_keys (d : PyDict) (k : String) :
    (dget d k).isSome ↔ k ∈ d.map Prod.fst := by
  unfold dget
  rw [Option.isSome_map', List.find?_isSome]
  constructor
  · rintro ⟨p, hp, hpk⟩
    exact List.mem_map.mpr ⟨p, hp, by simpa using hpk⟩
  · intro h
    obtain ⟨p, hp, hpk⟩ := List.mem_map.mp h
    exact ⟨p, hp, by simpa using hpk⟩

theorem min_breach_alert_type (c : ℚ) (m : Option ℚ) (a : Alert)
    (h : min_breach_alert c m = some a) : a.type = "price_min_breach" := by
  unfold min_breach_alert at h
  split at h
  · split at h
    · cases h; rfl
    · cases h
  · cases h

theorem max_breach_alert_type (c : ℚ) (m : Option ℚ) (a : Alert)
    (h : max_breach_alert c m = some a) : a.type = "price_max_breach" := by
  unfold max_breach_alert at h
  split at h
  · split at h
    · cases h; rfl
    · cases h
  · cases h

/-- C8: for every finalized scrape record and override map, every key bound
to a non-None value in the override map reads back as the override value
after the merge; in particular scraped `currentPrice=10` merged with
override `{currentPrice: 12}` yields `currentPrice=12`. -/
theorem claim_C8 :
    (∀ (result initial : PyDict) (k : String) (v : PyVal),
        (initial.map Prod.fst).Nodup → (k, v) ∈ initial → v ≠ vNone →
        dget (merge_with_initial_data result initial) k = some v) ∧
    dget (merge_with_initial_data [("currentPrice", vNum 10)] [("currentPrice", vNum 12)])
      "currentPrice" = some (vNum 12) :=
  ⟨fun result initial k v h1 h2 h3 => merge_overrides initial result k v h1 h2 h3, by decide⟩

theorem claim_C8_witness :
    dget (merge_with_initial_data [("seller", vStr "scraped")] [("seller", vStr "given")])
      "seller" = some (vStr "given") :=
  claim_C8.1 [("seller", vStr "scraped")] [("seller", vStr "given")] "seller" (vStr "given")
    (by decide) (by decide) (by decide)

/-- C10: the override-extraction mapping has no entries for the scrape
outcome keys (status, errorMessage, method, attempts, errors, screenshotUrl,
scrapedAt), so merging the extracted override dict of any input item into
any record leaves those keys exactly as the scrape produced them. -/
theorem claim_C10 :
    (∀ k ∈ frame_keys, k ∉ field_mappings.map Prod.snd) ∧
    (∀ (item : Item) (result : PyDict) (k : String), k ∈ frame_keys →
      dget (merge_with_initial_data result (extract_initial_data item)) k = dget result k) := by
  have hout : ∀ k ∈ frame_keys, k ∉ field_mappings.map Prod.snd := by decide
  refine ⟨hout, fun item result k hk => ?_⟩
  have hnotin : k ∉ (extract_initial_data item).map Prod.fst := by
    intro hmem
    exact hout k hk
      (extract_initial_data_keys item k ((dget_isSome_iff_mem_keys _ k).mpr hmem))
  rw [merge_eq_foldl]
  exact merge_foldl_frame _ _ _ hnotin

theorem claim_C10_witness :
    dget (merge_with_initial_data [("status", vStr "error")]
        (extract_initial_data (fun k => if k = "status" then vStr "completed" else vNone)))
      "status" = dget [("status", vStr "error")] "status" :=
  claim_C10.2 (fun k => if k = "status" then vStr "completed" else vNone)
    [("status", vStr "error")] "status" (by decide)

theorem scenC_alert :
    check_price_alert scenC_record =
      some { type := "price_min_breach", currentPrice := 90, priceLimit := 100,
             breachAmount := 10, breachPercentage := 10 } := by
  have halert : pyGet scenC_record "alertsEnabled" = vBool true := by decide
  have hcur : pyGetNum scenC_record "currentPrice" = some 90 := by decide
  have hmin : pyGetNum scenC_record "minPrice" = some 100 := by decide
  have hlt : (90 : ℚ) < 100 := by norm_num
  have hba : round2 ((100 : ℚ) - 90) = 10 := by norm_num [round2, pyRound]
  have hbp : round2 (((100 : ℚ) - 90) / 100 * 100) = 10 := by norm_num [round2, pyRound]
  rw [check_price_alert]
  rw [if_neg (by rw [halert]; decide)]
  rw [hcur]
  simp only [hmin, min_breach_alert, if_pos hlt, hba, hbp]

/-- C2 counterexample: on the Scenario C record the price-alert check does
return a breach alert, but its `type` string is `price_min_breach`, not the
claimed `min_breach` (and symmetrically the max string is
`price_max_breach`); the claim as stated is false on the code. -/
theorem claim_C2_counterexample :
    (check_price_alert scenC_record).map Alert.type = some "price_min_breach" ∧
    ¬ ((check_price_alert scenC_record).map Alert.type = some "min_breach") := by
  rw [scenC_alert]
  exact ⟨rfl, by simp⟩

/-- C2 amended: on the Scenario C record the alert has type
`price_min_breach` with `breachAmount=10` and `breachPercentage=10.0`, and
every alert the check can return has type `price_min_breach` or
`price_max_breach`. -/
theorem claim_C2 :
    check_price_alert scenC_record =
      some { type := "price_min_breach", currentPrice := 90, priceLimit := 100,
             breachAmount := 10, breachPercentage := 10 } ∧
    (∀ (r : PyDict) (a : Alert), check_price_alert r = some a →
      a.type = "price_min_breach" ∨ a.type = "price_max_breach") := by
  refine ⟨scenC_alert, fun r a h => ?_⟩
  rw [check_price_alert] at h
  split at h
  · exact absurd h (by simp)
  · split at h
    · exact absurd h (by simp)
    · rename_i current _
      split at h
      · rename_i b hb
        cases h
        exact Or.inl (min_breach_alert_type current (pyGetNum r "minPrice") _ hb)
      · exact Or.inr (max_breach_alert_type current (pyGetNum r "maxPrice") a h)

theorem claim_C2_witness :
    ({ type := "price_min_breach", currentPrice := 90, priceLimit := 100,
       breachAmount := 10, breachPercentage := 10 } : Alert).type = "price_min_breach" ∨
    ({ type := "price_min_breach", currentPrice := 90, priceLimit := 100,
       breachAmount := 10, breachPercentage := 10 } : Alert).type = "price_max_breach" :=
  claim_C2.2 scenC_record _ claim_C2.1

/-- C5: at every job completion (where the failed count cannot exceed the
total, since the batch returns at most one record per input item), the final
status is `failed` iff `failedCount == totalTasks`, `partial` iff
`0 < failedCount < totalTasks`, and `completed` otherwise. -/
theorem claim_C5 (job : JobRecord) (c f w : ℕ) (em : Option String)
    (hle : f ≤ job.totalUrls) :
    ((complete_job job c f w em).status = "failed" ↔ f = job.totalUrls) ∧
    ((complete_job job c f w em).status = "partial" ↔ 0 < f ∧ f < job.totalUrls) ∧
    ((complete_job job c f w em).status = "completed" ↔
      ¬ (f = job.totalUrls) ∧ ¬ (0 < f ∧ f < job.totalUrls)) := by
  have hstat : (complete_job job c f w em).status =
      if f = job.totalUrls then "failed" else if f > 0 then "partial" else "completed" := by
    simp only [complete_job]
    split_ifs <;> rfl
  rw [hstat]
  have hfp : ("failed" : String) ≠ "partial" := by decide
  have hfc : ("failed" : String) ≠ "completed" := by decide
  have hpc : ("partial" : String) ≠ "completed" := by decide
  split_ifs with h1 h2
  · exact ⟨⟨fun _ => h1, fun _ => rfl⟩,
      ⟨fun hs => absurd hs hfp, fun hp => absurd h1 (by omega)⟩,
      ⟨fun hs => absurd hs hfc, fun hc => absurd h1 (by tauto)⟩⟩
  · exact ⟨⟨fun hs => absurd hs.symm hfp, fun hf => absurd hf h1⟩,
      ⟨fun _ => ⟨h2, lt_of_le_of_ne hle h1⟩, fun _ => rfl⟩,
      ⟨fun hs => absurd hs hpc, fun hc => absurd ⟨h2, lt_of_le_of_ne hle h1⟩ hc.2⟩⟩
  · exact ⟨⟨fun hs => absurd hs.symm hfc, fun hf => absurd hf h1⟩,
      ⟨fun hs => absurd hs.symm hpc, fun hp => absurd hp.1 h2⟩,
      ⟨fun _ => ⟨h1, fun hp => h2 hp.1⟩, fun _ => rfl⟩⟩

theorem claim_C5_witness :
    ((complete_job { jobId := "job1", status := "processing", totalUrls := 3 } 2 1 0
        Option.none).status = "failed" ↔ 1 = 3) ∧
    ((complete_job { jobId := "job1", status := "processing", totalUrls := 3 } 2 1 0
        Option.none).status = "partial" ↔ 0 < 1 ∧ 1 < 3) ∧
    ((complete_job { jobId := "job1", status := "processing", totalUrls := 3 } 2 1 0
        Option.none).status = "completed" ↔ ¬ ((1 : ℕ) = 3) ∧ ¬ ((0 : ℕ) < 1 ∧ 1 < 3)) :=
  claim_C5 { jobId := "job1", status := "processing", totalUrls := 3 } 2 1 0 Option.none
    (by decide)

theorem send_attempts_le (cfg : BatcherCfg) (resp : ℕ → TbResponse) (u : ℕ → ℚ) :
    ∀ (fuel attempt : ℕ), (send_attempts cfg resp u attempt fuel).attemptsMade ≤ fuel := by
  intro fuel
  induction fuel with
  | zero => intro attempt; exact Nat.le_refl 0
  | succ n ih =>
    intro attempt
    unfold send_attempts
    split
    · exact Nat.succ_le_succ (Nat.zero_le n)
    · split
      · exact Nat.succ_le_succ (ih (attempt + 1))
      · exact Nat.succ_le_succ (Nat.zero_le n)

theorem flush_internal_emission (cfg : BatcherCfg) (st : BatcherState)
    (resp : ℕ → TbResponse) (u : ℕ → ℚ) (b : List PyDict)
    (hb : b ∈ (flush_internal cfg st resp u).2) : b = st.buffer ∧ st.buffer ≠ [] := by
  unfold flush_internal at hb
  split at hb
  · cases hb
  · rename_i hne
    split at hb
    · cases hb
    · simp only [List.mem_singleton] at hb
      exact ⟨hb, hne⟩

theorem add_emission_trigger (cfg : BatcherCfg) (prepare : PyDict → PyDict)
    (st : BatcherState) (r : PyDict) (now : ℚ) (resp : ℕ → TbResponse) (u : ℕ → ℚ)
    (h : (add cfg prepare st r now resp u).2 ≠ []) :
    cfg.batch_size ≤ st.buffer.length + 1 := by
  simp only [add] at h
  split at h
  · rename_i hc
    simpa using hc
  · exact absurd rfl h

theorem add_below_threshold (cfg : BatcherCfg) (prepare : PyDict → PyDict)
    (st : BatcherState) (r : PyDict) (now : ℚ) (resp : ℕ → TbResponse) (u : ℕ → ℚ)
    (h : ¬ cfg.batch_size ≤ st.buffer.length + 1) :
    add cfg prepare st r now resp u = (add_no_flush_state prepare st r now, []) := by
  unfold add add_no_flush_state
  rw [if_neg (by simpa using h)]

theorem add_all_no_flush (cfg : BatcherCfg) (prepare : PyDict → PyDict) (now : ℚ)
    (resp : ℕ → TbResponse) (u : ℕ → ℚ) :
    ∀ (rs : List PyDict) (st : BatcherState) (acc : List (List PyDict)),
      st.buffer.length + rs.length < cfg.batch_size →
      (rs.foldl
        (fun a r =>
          let step := add cfg prepare a.1 r now resp u
          (step.1, a.2 ++ step.2))
        (st, acc)).2 = acc ∧
      (rs.foldl
        (fun a r =>
          let step := add cfg prepare a.1 r now resp u
          (step.1, a.2 ++ step.2))
        (st, acc)).1.buffer = st.buffer ++ rs.map prepare := by
  intro rs
  induction rs with
  | nil => intro st acc _; exact ⟨rfl, by simp⟩
  | cons r rest ih =>
    intro st acc h
    simp only [List.length_cons] at h
    have hlt : ¬ cfg.batch_size ≤ st.buffer.length + 1 := by omega
    simp only [List.foldl_cons, add_below_threshold cfg prepare st r now resp u hlt,
      List.append_nil]
    have hlen : (add_no_flush_state prepare st r now).buffer.length + rest.length
        < cfg.batch_size := by
      simp only [add_no_flush_state, List.length_append, List.length_singleton]
      omega
    obtain ⟨h1, h2⟩ := ih _ acc hlen
    refine ⟨h1, ?_⟩
    rw [h2]
    simp [add_no_flush_state, List.append_assoc]

/-- C6: a flush can only be triggered by the buffer reaching `batch_size` on
an add, by the timer finding a non-empty buffer idle for at least
`flush_timeout`, or by an explicit flush/teardown on a non-empty buffer; an
empty buffer is never delivered; and with `batch_size = 10`, nine adds
trigger no flush while the tenth triggers exactly one flush carrying exactly
those ten prepared records. -/
theorem claim_C6 :
    (∀ (cfg : BatcherCfg) (prepare : PyDict → PyDict) (st : BatcherState) (r : PyDict)
        (now : ℚ) (resp : ℕ → TbResponse) (u : ℕ → ℚ),
      ((add cfg prepare st r now resp u).2 ≠ [] → cfg.batch_size ≤ st.buffer.length + 1) ∧
      (∀ b ∈ (add cfg prepare st r now resp u).2, b ≠ [])) ∧
    (∀ (cfg : BatcherCfg) (st : BatcherState) (now : ℚ) (resp : ℕ → TbResponse) (u : ℕ → ℚ),
      ((flush_timer_tick cfg st now resp u).2 ≠ [] →
        st.buffer ≠ [] ∧ cfg.flush_timeout ≤ now - st.last_add_time) ∧
      (∀ b ∈ (flush_timer_tick cfg st now resp u).2, b ≠ [])) ∧
    (∀ (cfg : BatcherCfg) (st : BatcherState) (resp : ℕ → TbResponse) (u : ℕ → ℚ),
      ((flush cfg st resp u).2 ≠ [] → st.buffer ≠ []) ∧
      (∀ b ∈ (flush cfg st resp u).2, b ≠ [])) ∧
    (∀ (prepare : PyDict → PyDict) (rs : List PyDict) (r : PyDict) (now now' : ℚ)
        (resp : ℕ → TbResponse) (u : ℕ → ℚ),
      rs.length = 9 →
      (add_all (tinybird_defaults true) prepare initial_batcher_state rs now resp u).2 = [] ∧
      (add (tinybird_defaults true) prepare
          (add_all (tinybird_defaults true) prepare initial_batcher_state rs now resp u).1
          r now' resp u).2 = [(rs ++ [r]).map prepare]) := by
  refine ⟨?_, ?_, ?_, ?_⟩
  · intro cfg prepare st r now resp u
    refine ⟨add_emission_trigger cfg prepare st r now resp u, fun b hb => ?_⟩
    simp only [add] at hb
    split at hb
    · obtain ⟨hbuf, hne⟩ := flush_internal_emission _ _ _ _ _ hb
      rw [hbuf]
      exact hne
    · cases hb
  · intro cfg st now resp u
    constructor
    · intro h
      unfold flush_timer_tick at h
      split at h
      · rename_i hc; exact hc
      · exact absurd rfl h
    · intro b hb
      unfold flush_timer_tick at hb
      split at hb
      · obtain ⟨hbuf, hne⟩ := flush_internal_emission _ _ _ _ _ hb
        rw [hbuf]; exact hne
      · cases hb
  · intro cfg st resp u
    constructor
    · intro h
      unfold flush at h
      split at h
      · rename_i hc; exact hc
      · exact absurd rfl h
    · intro b hb
      unfold flush at hb
      split at hb
      · obtain ⟨hbuf, hne⟩ := flush_internal_emission _ _ _ _ _ hb
        rw [hbuf]; exact hne
      · cases hb
  · intro prepare rs r now now' resp u hlen
    have hsmall : initial_batcher_state.buffer.length + rs.length <
        (tinybird_defaults true).batch_size := by
      simp [initial_batcher_state, tinybird_defaults, hlen]
    obtain ⟨hemit, hbuf⟩ := add_all_no_flush (tinybird_defaults true) prepare now resp u
      rs initial_batcher_state [] hsmall
    refine ⟨hemit, ?_⟩
    unfold add_all
    set st9 := (rs.foldl
        (fun a r =>
          let step := add (tinybird_defaults true) prepare a.1 r now resp u
          (step.1, a.2 ++ step.2))
        (initial_batcher_state, ([] : List (List PyDict)))).1 with hst9
    have hbuf9 : st9.buffer = rs.map prepare := by
      rw [hbuf]; simp [initial_batcher_state]
    have hlen9 : st9.buffer.length = 9 := by rw [hbuf9]; simp [hlen]
    have hfull : (tinybird_defaults true).batch_size ≤
        (st9.buffer ++ [prepare r]).length := by
      simp [hlen9, tinybird_defaults]
    have hne10 : st9.buffer ++ [prepare r] ≠ [] := by
      intro hc
      have := congrArg List.length hc
      simp [hlen9] at this
    unfold add
    rw [if_pos (by simpa using hfull)]
    unfold flush_internal
    rw [if_neg (by simpa using hne10)]
    rw [if_neg (by simp [tinybird_defaults])]
    simp only [hbuf9]
    rw [List.map_append]
    rfl

theorem claim_C6_witness :
    (add_all (tinybird_defaults true) id initial_batcher_state
        (List.replicate 9 [("urlId", vStr "u")]) 0 (fun _ => TbResponse.http 200 Option.none)
        (fun _ => 0)).2 = [] ∧
    (add (tinybird_defaults true) id
        (add_all (tinybird_defaults true) id initial_batcher_state
          (List.replicate 9 [("urlId", vStr "u")]) 0 (fun _ => TbResponse.http 200 Option.none)
          (fun _ => 0)).1
        [("urlId", vStr "v")] 0 (fun _ => TbResponse.http 200 Option.none) (fun _ => 0)).2 =
      [(List.replicate 9 [("urlId", vStr "u")] ++ [[("urlId", vStr "v")]]).map id] :=
  claim_C6.2.2.2 id (List.replicate 9 [("urlId", vStr "u")]) [("urlId", vStr "v")] 0 0
    (fun _ => TbResponse.http 200 Option.none) (fun _ => 0) (by decide)

/-- C7: delivery of a flushed batch makes at most `max_retries` attempts in
total; when the last attempt fails the batch is dropped (the buffer stays
cleared, the batch is handed out exactly once and never re-queued) and the
failed-batch counter grows by exactly one; and with `max_retries = 3`
against an endpoint failing thrice then succeeding, delivery fails after
exactly three attempts. -/
theorem claim_C7 :
    (∀ (cfg : BatcherCfg) (batch : List PyDict) (resp : ℕ → TbResponse) (u : ℕ → ℚ),
      (send_batch_with_retry cfg batch resp u).attemptsMade ≤ cfg.max_retries) ∧
    (∀ (cfg : BatcherCfg) (st : BatcherState) (resp : ℕ → TbResponse) (u : ℕ → ℚ),
      st.buffer ≠ [] → cfg.tokenPresent = true →
      (send_batch_with_retry cfg st.buffer resp u).success = false →
      (flush_internal cfg st resp u).1.failed_batches = st.failed_batches + 1 ∧
      (flush_internal cfg st resp u).1.buffer = [] ∧
      (flush_internal cfg st resp u).2 = [st.buffer]) ∧
    ((send_batch_with_retry (tinybird_defaults true) [] scenE_resp (fun _ => 0)).success
        = false ∧
     (send_batch_with_retry (tinybird_defaults true) [] scenE_resp
        (fun _ => 0)).attemptsMade = 3) := by
  refine ⟨?_, ?_, ?_, ?_⟩
  · intro cfg batch resp u
    exact send_attempts_le cfg resp u cfg.max_retries 1
  · intro cfg st resp u hne htok hfail
    unfold flush_internal
    rw [if_neg (by simpa using hne)]
    rw [if_neg (by rw [htok]; simp)]
    simp [hfail]
  · decide
  · decide

theorem claim_C7_witness :
    ((send_batch_with_retry (tinybird_defaults true)
        [[("urlId", vStr "w")]] (fun _ => TbResponse.http 500 Option.none)
        (fun _ => 0)).attemptsMade ≤ (tinybird_defaults true).max_retries) ∧
    ((flush_internal (tinybird_defaults true)
        { buffer := [[("urlId", vStr "w")]], last_add_time := 0, total_records := 1,
          total_batches := 0, failed_batches := 0 }
        (fun _ => TbResponse.http 500 Option.none) (fun _ => 0)).1.failed_batches = 0 + 1 ∧
     (flush_internal (tinybird_defaults true)
        { buffer := [[("urlId", vStr "w")]], last_add_time := 0, total_records := 1,
          total_batches := 0, failed_batches := 0 }
        (fun _ => TbResponse.http 500 Option.none) (fun _ => 0)).1.buffer = [] ∧
     (flush_internal (tinybird_defaults true)
        { buffer := [[("urlId", vStr "w")]], last_add_time := 0, total_records := 1,
          total_batches := 0, failed_batches := 0 }
        (fun _ => TbResponse.http 500 Option.none) (fun _ => 0)).2 =
       [[[("urlId", vStr "w")]]]) :=
  ⟨claim_C7.1 (tinybird_defaults true) [[("urlId", vStr "w")]]
      (fun _ => TbResponse.http 500 Option.none) (fun _ => 0),
   claim_C7.2.1 (tinybird_defaults true)
      { buffer := [[("urlId", vStr "w")]], last_add_time := 0, total_records := 1,
        total_batches := 0, failed_batches := 0 }
      (fun _ => TbResponse.http 500 Option.none) (fun _ => 0)
      (by decide) (by decide) (by decide)⟩

/-- C1: on a 429 with `Retry-After: 100` under the default batcher settings,
the code computes and logs the server-supplied delay (line 1050), but the
delay actually slept before the next attempt is the recomputed exponential
backoff of line 1068 — here 1 second, not 100.  The sleep never uses the
Retry-After value. -/
theorem claim_C1 :
    rate_limit_logged_delay (tinybird_defaults true) 1 0 (some 100) = 100 ∧
    (send_batch_with_retry (tinybird_defaults true) [] c1_resp (fun _ => 0)).sleeps.head?
      = some (calculate_delay (tinybird_defaults true) 1 0) ∧
    calculate_delay (tinybird_defaults true) 1 0 = 1 ∧
    (1 : ℚ) ≠ 100 := by
  refine ⟨rfl, rfl, ?_, by norm_num⟩
  norm_num [calculate_delay, tinybird_defaults]

/-- C3: under budgets [1,3,2], with provider 1 failing transport, provider 2
failing the size check then fetching with no extractable price, and provider
3 succeeding, the final record is completed with method provider 3 and an
attempts log of exactly the 4 entries in invocation order (1+2+1); the
adapter was invoked exactly four times, and the merged output carries the
same status, method and attempts. -/
theorem claim_C3 :
    (scrape_url_result cfgA oracleA "t1" "https://example.com/p" 0).1.status = "completed" ∧
    (scrape_url_result cfgA oracleA "t1" "https://example.com/p" 0).1.method
      = some "playwright" ∧
    (scrape_url_result cfgA oracleA "t1" "https://example.com/p" 0).1.attempts =
      ["Firecrawl", "Bright Data", "Bright Data (retry 1)", "Playwright"] ∧
    (scrape_url_result cfgA oracleA "t1" "https://example.com/p" 0).1.attempts.length = 4 ∧
    (scrape_url_result cfgA oracleA "t1" "https://example.com/p" 0).2 =
      [(Method.firecrawl, 0), (Method.brightdata, 0), (Method.brightdata, 1),
       (Method.playwright, 0)] ∧
    dget (scrape_url cfgA oracleA "t1" "https://example.com/p" 0 []) "status"
      = some (vStr "completed") ∧
    dget (scrape_url cfgA oracleA "t1" "https://example.com/p" 0 []) "method"
      = some (vStr "playwright") ∧
    dget (scrape_url cfgA oracleA "t1" "https://example.com/p" 0 []) "attempts"
      = some (vStrList ["Firecrawl", "Bright Data", "Bright Data (retry 1)", "Playwright"]) := by
  decide

theorem take_leads {α : Type} (n : ℕ) (l : List α) : l.take n <+: l :=
  ⟨l.drop n, List.take_append_drop n l⟩

theorem leads_take_eq {α : Type} {a e : List α} (h : a <+: e) : e.take a.length = a := by
  obtain ⟨s, rfl⟩ := h
  exact List.take_left a s

theorem leads_total {α : Type} {a b e : List α} (ha : a <+: e) (hb : b <+: e) :
    a <+: b ∨ b <+: a := by
  rcases Nat.le_total a.length b.length with h | h
  · left
    have h1 := leads_take_eq ha
    have h2 := leads_take_eq hb
    have hab : b.take a.length = a := by
      rw [← h2, List.take_take, Nat.min_eq_left h, h1]
    rw [← hab]
    exact take_leads _ _
  · right
    have h1 := leads_take_eq ha
    have h2 := leads_take_eq hb
    have hba : a.take b.length = b := by
      rw [← h1, List.take_take, Nat.min_eq_left h, h2]
    rw [← hba]
    exact take_leads _ _

/-- A provider's display name starts every one of its attempt labels. -/
theorem methodName_leads_label (m : Method) (k : ℕ) :
    (methodName m).data <+: (attemptLabel m k).data := by
  unfold attemptLabel
  split
  · exact ⟨[], List.append_nil _⟩
  · simp only [String.data_append]
    refine ⟨" (retry ".data ++ (toString k).data ++ ")".data, ?_⟩
    simp [List.append_assoc]

/-- Distinct providers' display names never start each other. -/
theorem methodName_no_cross (m m' : Method) (hne : m ≠ m') :
    ¬ (methodName m).data <+: (methodName m').data := by
  intro h
  have ht := leads_take_eq h
  cases m <;> cases m' <;> revert ht <;>
    first
      | exact fun _ => hne rfl
      | decide

/-- Every label the retry loop appends is a label of the provider it ran. -/
theorem run_retries_labels (oracle : Method → ℕ → AttemptOutcome) (m : Method) :
    ∀ (fuel : ℕ) (lastErr : Option String) (retry : ℕ),
      ∀ e ∈ (run_retries oracle m lastErr retry fuel).labels, ∃ k, e = attemptLabel m k := by
  intro fuel
  induction fuel with
  | zero => intro lastErr retry e he; cases he
  | succ n ih =>
    intro lastErr retry e he
    unfold run_retries at he
    rcases hcase : oracle m retry with msg | err | f <;> rw [hcase] at he <;>
      simp only [List.mem_cons, List.mem_singleton] at he
    · rcases he with rfl | he
      · exact ⟨retry, rfl⟩
      · exact ih _ _ e he
    · rcases he with rfl | he
      · exact ⟨retry, rfl⟩
      · exact ih _ _ e he
    · rcases he with rfl | he
      · exact ⟨retry, rfl⟩
      · cases he

/-- Every entry in the final attempts log either predates the loop or is an
attempt label of one of the providers in the remaining order. -/
theorem scrape_methods_loop_labels (cfg : ScrapeCfg) (oracle : Method → ℕ → AttemptOutcome)
    (base : ScrapeResult) :
    ∀ (ms : List Method) (st : LoopState),
      ∀ e ∈ (scrape_methods_loop cfg oracle base ms st).1.attempts,
        e ∈ st.attempts ∨ ∃ m ∈ ms, ∃ k, e = attemptLabel m k := by
  intro ms
  induction ms with
  | nil =>
    intro st e he
    exact Or.inl he
  | cons m rest ih =>
    intro st e he
    simp only [scrape_methods_loop] at he
    have hstep : ∀ e', e' ∈ st.attempts ++
        (run_retries oracle m st.lastError 0 (cfg.retries m)).labels →
        e' ∈ st.attempts ∨ ∃ m' ∈ m :: rest, ∃ k, e' = attemptLabel m' k := by
      intro e' he'
      rcases List.mem_append.mp he' with h | h
      · exact Or.inl h
      · obtain ⟨k, hk⟩ := run_retries_labels oracle m _ _ _ e' h
        exact Or.inr ⟨m, List.mem_cons_self m rest, k, hk⟩
    have hlift : ∀ (st'' : LoopState),
        (∀ e', e' ∈ st''.attempts →
          e' ∈ st.attempts ∨ ∃ m' ∈ m :: rest, ∃ k, e' = attemptLabel m' k) →
        e ∈ (scrape_methods_loop cfg oracle base rest st'').1.attempts →
        e ∈ st.attempts ∨ ∃ m' ∈ m :: rest, ∃ k, e = attemptLabel m' k := by
      intro st'' hinner he''
      rcases ih st'' e he'' with h | ⟨m', hm', k, hk⟩
      · exact hinner e h
      · exact Or.inr ⟨m', List.mem_cons_of_mem m hm', k, hk⟩
    rcases hcase : (run_retries oracle m st.lastError 0 (cfg.retries m)).outcome with _ | f <;>
        rw [hcase] at he <;> simp only at he
    · exact hlift _ hstep he
    · split at he
      · exact hstep e he
      · exact hlift _ hstep he

/-- Membership in the resolved order implies a positive retry budget. -/
theorem resolved_order_pos (cfg : ScrapeCfg) (m : Method) (hm : m ∈ resolved_order cfg) :
    0 < cfg.retries m := by
  unfold resolved_order at hm
  simpa using (List.mem_filter.mp hm).2

theorem dset_fold_frame (f : String → Option PyVal) :
    ∀ (names : List String) (acc : PyDict) (k : String), k ∉ names →
      dget (names.foldl (fun acc k' =>
        match f k' with
        | some v => dset acc k' v
        | Option.none => acc) acc) k = dget acc k := by
  intro names
  induction names with
  | nil => intro acc k _; rfl
  | cons n rest ih =>
    intro acc k hk
    simp only [List.mem_cons, not_or] at hk
    simp only [List.foldl_cons]
    rw [ih _ k hk.2]
    rcases hfn : f n with _ | v
    · rfl
    · exact dget_dset_ne acc k n v hk.1

theorem dset_fold_assign (f : String → Option PyVal) :
    ∀ (names : List String) (acc : PyDict) (k : String) (v : PyVal),
      names.Nodup → k ∈ names → f k = some v →
      dget (names.foldl (fun acc k' =>
        match f k' with
        | some v => dset acc k' v
        | Option.none => acc) acc) k = some v := by
  intro names
  induction names with
  | nil => intro acc k v _ hk _; cases hk
  | cons n rest ih =>
    intro acc k v hnd hk hfv
    simp only [List.nodup_cons] at hnd
    simp only [List.foldl_cons]
    rcases List.mem_cons.mp hk with rfl | hk'
    · rw [dset_fold_frame f rest _ k hnd.1, hfv]
      exact dget_dset_self acc k v
    · exact ih _ k v hnd.2 hk' hfv

theorem to_dict_names_nodup : to_dict_field_names.Nodup := by decide

theorem dget_to_dict_status (r : ScrapeResult) :
    dget r.to_dict "status" = some (vStr r.status) := by
  rw [ScrapeResult.to_dict,
    dset_fold_frame (scrape_attr r) to_dict_field_names _ "status" (by decide)]
  simp [dget, List.find?]

theorem dget_to_dict_attr (r : ScrapeResult) (k : String) (v : PyVal)
    (hk : k ∈ to_dict_field_names) (hv : scrape_attr r k = some v) :
    dget r.to_dict k = some v := by
  rw [ScrapeResult.to_dict]
  exact dset_fold_assign (scrape_attr r) to_dict_field_names _ k v to_dict_names_nodup hk hv

theorem merge_extract_frame (item : Item) (result : PyDict) (k : String)
    (hk : k ∈ frame_keys) :
    dget (merge_with_initial_data result (extract_initial_data item)) k = dget result k := by
  have hout : ∀ k ∈ frame_keys, k ∉ field_mappings.map Prod.snd := by decide
  have hnotin : k ∉ (extract_initial_data item).map Prod.fst := by
    intro hmem
    exact hout k hk
      (extract_initial_data_keys item k ((dget_isSome_iff_mem_keys _ k).mpr hmem))
  rw [merge_eq_foldl]
  exact merge_foldl_frame _ _ _ hnotin

theorem scrape_url_result_all_disabled (cfg : ScrapeCfg)
    (oracle : Method → ℕ → AttemptOutcome) (uid url : String) (t : ℚ)
    (hall : ∀ m, cfg.retries m = 0) :
    scrape_url_result cfg oracle uid url t = (all_disabled_result uid url t, []) := by
  have ho : resolved_order cfg = [] := by
    rw [resolved_order, List.filter_eq_nil_iff]
    intro a _
    simp [hall a]
  simp only [scrape_url_result]
  rw [if_pos ho]
  rfl

/-- C4: a provider whose retry budget is zero never appears in any task's
attempts log (no entry starts with its display name), under any routing
policy and adapter behaviour; and when every budget is zero the task returns
immediately with the configuration error message, an empty attempts log and
no adapter invocation, and the merged output of any input item still shows
status error, empty attempts and the configuration error message. -/
theorem claim_C4 :
    (∀ (cfg : ScrapeCfg) (oracle : Method → ℕ → AttemptOutcome) (uid url : String)
        (t : ℚ) (m : Method), cfg.retries m = 0 →
      ∀ e ∈ (scrape_url_result cfg oracle uid url t).1.attempts,
        ¬ (methodName m).data <+: e.data) ∧
    (∀ (cfg : ScrapeCfg) (oracle : Method → ℕ → AttemptOutcome) (uid url : String) (t : ℚ),
      (∀ m, cfg.retries m = 0) →
      (scrape_url_result cfg oracle uid url t).1.status = "error" ∧
      (scrape_url_result cfg oracle uid url t).1.errorMessage =
        some "All scraping methods are disabled (all retry counts set to 0)" ∧
      (scrape_url_result cfg oracle uid url t).1.attempts = [] ∧
      (scrape_url_result cfg oracle uid url t).2 = [] ∧
      (∀ item : Item,
        dget (scrape_url cfg oracle uid url t (extract_initial_data item)) "status"
          = some (vStr "error") ∧
        dget (scrape_url cfg oracle uid url t (extract_initial_data item)) "attempts"
          = some (vStrList []) ∧
        dget (scrape_url cfg oracle uid url t (extract_initial_data item)) "errorMessage"
          = some (vStr "All scraping methods are disabled (all retry counts set to 0)"))) := by
  constructor
  · intro cfg oracle uid url t m hm e he hlead
    revert he
    simp only [scrape_url_result]
    by_cases ho : resolved_order cfg = []
    · rw [if_pos ho]
      intro he
      simp at he
    · rw [if_neg ho]
      intro he
      rcases scrape_methods_loop_labels cfg oracle _ (resolved_order cfg) _ e he
          with h | ⟨m', hm', k, hk⟩
      · simp at h
      · have hm'pos := resolved_order_pos cfg m' hm'
        have hne : m ≠ m' := by
          intro hEq
          rw [← hEq, hm] at hm'pos
          exact absurd hm'pos (lt_irrefl 0)
        subst hk
        rcases leads_total hlead (methodName_leads_label m' k) with hcross | hcross
        · exact methodName_no_cross m m' hne hcross
        · exact methodName_no_cross m' m (Ne.symm hne) hcross
  · intro cfg oracle uid url t hall
    have hres := scrape_url_result_all_disabled cfg oracle uid url t hall
    refine ⟨by rw [hres]; rfl, by rw [hres]; rfl, by rw [hres]; rfl, by rw [hres], ?_⟩
    intro item
    have hms : dget (scrape_url cfg oracle uid url t (extract_initial_data item)) "status"
        = some (vStr "error") := by
      rw [scrape_url, merge_extract_frame item _ "status" (by decide), hres,
        dget_to_dict_status]
      rfl
    have hma : dget (scrape_url cfg oracle uid url t (extract_initial_data item)) "attempts"
        = some (vStrList []) := by
      rw [scrape_url, merge_extract_frame item _ "attempts" (by decide), hres]
      exact dget_to_dict_attr (all_disabled_result uid url t) "attempts" (vStrList [])
        (by decide) rfl
    have hme : dget (scrape_url cfg oracle uid url t (extract_initial_data item))
        "errorMessage"
        = some (vStr "All scraping methods are disabled (all retry counts set to 0)") := by
      rw [scrape_url, merge_extract_frame item _ "errorMessage" (by decide), hres]
      exact dget_to_dict_attr (all_disabled_result uid url t) "errorMessage"
        (vStr "All scraping methods are disabled (all retry counts set to 0)")
        (by decide) rfl
    exact ⟨hms, hma, hme⟩

theorem claim_C4_witness :
    ((scrape_url_result
        { retries := fun _ => 0, preferred := Option.none,
          url_forced_brightdata := false, primary := "firecrawl" }
        (fun _ _ => AttemptOutcome.exn "never") "u1" "https://example.com" 0).1.attempts = []) ∧
    ((scrape_url_result
        { retries := fun _ => 0, preferred := Option.none,
          url_forced_brightdata := false, primary := "firecrawl" }
        (fun _ _ => AttemptOutcome.exn "never") "u1" "https://example.com" 0).2 = []) ∧
    dget (scrape_url
        { retries := fun _ => 0, preferred := Option.none,
          url_forced_brightdata := false, primary := "firecrawl" }
        (fun _ _ => AttemptOutcome.exn "never") "u1" "https://example.com" 0
        (extract_initial_data (fun _ => vNone))) "status" = some (vStr "error") := by
  have h := claim_C4.2
    { retries := fun _ => 0, preferred := Option.none,
      url_forced_brightdata := false, primary := "firecrawl" }
    (fun _ _ => AttemptOutcome.exn "never") "u1" "https://example.com" 0 (fun _ => rfl)
  exact ⟨h.2.2.1, h.2.2.2.1, (h.2.2.2.2 (fun _ => vNone)).1⟩

theorem normalize_items_initial (items : List Item) :
    ∀ p ∈ normalize_items items, ∃ item, p.initial_data = extract_initial_data item := by
  intro p hp
  unfold normalize_items at hp
  obtain ⟨item, _, hsome⟩ := List.mem_filterMap.mp hp
  revert hsome
  rcases extract_url_from_item item with _ | url
  · intro hsome; cases hsome
  · intro hsome
    simp only at hsome
    split at hsome
    · cases hsome
    · cases hsome
      exact ⟨item, rfl⟩

/-- C9: the scheduler returns exactly one record per valid normalized item,
in input order: the i-th result is the i-th unit's record when it returned,
and when the i-th unit raised, its result is the synthetic error record for
the i-th item, showing status error and the truncated exception text even
after the override merge — so the batch as a whole is a total function and
never propagates a single task's exception. -/
theorem claim_C9 :
    (∀ (items : List Item) (outcome : ℕ → Except String PyDict) (now : ℚ),
      (process_batch items outcome now).length = (normalize_items items).length) ∧
    (∀ (items : List Item) (outcome : ℕ → Except String PyDict) (now : ℚ)
        (i : ℕ) (h : i < (normalize_items items).length) (r : PyDict),
      outcome i = Except.ok r →
      (process_batch items outcome now).get
        ⟨i, by simpa [process_batch] using h⟩ = r) ∧
    (∀ (items : List Item) (outcome : ℕ → Except String PyDict) (now : ℚ)
        (i : ℕ) (h : i < (normalize_items items).length) (msg : String),
      outcome i = Except.error msg →
      dget ((process_batch items outcome now).get
        ⟨i, by simpa [process_batch] using h⟩) "status" = some (vStr "error") ∧
      dget ((process_batch items outcome now).get
        ⟨i, by simpa [process_batch] using h⟩) "errorMessage"
        = some (vStr (msg.take 200))) := by
  have hget : ∀ (items : List Item) (outcome : ℕ → Except String PyDict) (now : ℚ)
      (i : ℕ) (h : i < (normalize_items items).length),
      (process_batch items outcome now).get ⟨i, by simpa [process_batch] using h⟩ =
      (match outcome i with
       | Except.ok r => r
       | Except.error msg =>
         merge_with_initial_data
           [("urlId", ((normalize_items items).get ⟨i, h⟩).url_id),
            ("productUrl", vStr ((normalize_items items).get ⟨i, h⟩).url),
            ("status", vStr "error"), ("errorMessage", vStr (msg.take 200)),
            ("scrapedAt", vNum now)]
           ((normalize_items items).get ⟨i, h⟩).initial_data) := by
    intro items outcome now i h
    simp only [process_batch, List.get_eq_getElem, List.getElem_map]
    rw [List.getElem_enum]
  refine ⟨?_, ?_, ?_⟩
  · intro items outcome now
    simp [process_batch]
  · intro items outcome now i h r hr
    rw [hget items outcome now i h, hr]
  · intro items outcome now i h msg hmsg
    rw [hget items outcome now i h, hmsg]
    obtain ⟨item, hitem⟩ := normalize_items_initial items
      ((normalize_items items).get ⟨i, h⟩) (List.get_mem _ _ h)
    rw [hitem]
    constructor
    · rw [merge_extract_frame item _ "status" (by decide)]
      simp [dget, List.find?]
    · rw [merge_extract_frame item _ "errorMessage" (by decide)]
      simp [dget, List.find?]

theorem claim_C9_witness :
    dget ((process_batch [itemW] (fun _ => Except.error "boom") 0).get
        ⟨0, by decide⟩) "status" = some (vStr "error") ∧
    dget ((process_batch [itemW] (fun _ => Except.error "boom") 0).get
        ⟨0, by decide⟩) "errorMessage" = some (vStr ("boom".take 200)) :=
  claim_C9.2.2 [itemW] (fun _ => Except.error "boom") 0 0 (by decide) "boom" rfl
